import Mathlib

/-!
Shallow embedding of the PDF RAG HTTP service
(`src/main.py`, `src/services/rag_service.py`, `src/utils/file_handler.py`,
`src/core/config.py`, `src/models/models.py`).

External subsystems (PyPDFLoader, the recursive text splitter, the Chroma
vector store's embedding computation and similarity ranking, the remote LLM)
are oracles: their outcomes are passed in as parameters.  The glue code of the
repository — validation, path handling, metadata tagging, the filter passed to
retrieval, exception routing, and HTTP status mapping — is embedded faithfully.
-/

namespace RAG

/-- A langchain `Document`: text content plus a string-keyed metadata mapping
(modelled as an association list without duplicate keys, Python-dict style). -/
structure Document where
  page_content : String
  metadata : List (String × String)
deriving Repr, DecidableEq

/-- A raised Python exception, distinguishing `ValueError` from other
exception classes: `upload_pdf` has separate `except` clauses for them. -/
inductive PyErr where
  | valueError (msg : String)
  | other (msg : String)
deriving Repr, DecidableEq

/-- Python dict assignment `m[k] = v`: replace the binding if the key is
present, otherwise append it. -/
def setMeta : List (String × String) → String → String → List (String × String)
  | [], k, v => [(k, v)]
  | (k', v') :: rest, k, v =>
      if k' = k then (k, v) :: rest else (k', v') :: setMeta rest k v

/-- Python `s.endswith(suffix)`, at the character level. -/
def pyEndsWith (s suffix : String) : Bool :=
  suffix.data.isSuffixOf s.data

/-- Python `os.path.basename(p)`: the longest suffix of `p` containing no
slash (everything after the last `/`; the whole string when there is none). -/
def basename (p : String) : String :=
  String.mk ((p.data.reverse.takeWhile (fun c => !(c = '/'))).reverse)

/-- Whether a path string is absolute (starts with a slash). -/
def isAbsPath (p : String) : Bool :=
  match p.data with
  | '/' :: _ => true
  | _ => false

/-- Python `os.path.join(dir, name)` for the cases this service reaches:
an absolute `name` replaces `dir`, otherwise the two are joined with `/`. -/
def joinPath (dir name : String) : String :=
  if isAbsPath name then name else dir ++ "/" ++ name

/-- Split a character list on `/` (like `"a/b".split("/")`); the result is
always nonempty and empty segments are kept. -/
def splitOnSlash : List Char → List (List Char)
  | [] => [[]]
  | c :: rest =>
      let r := splitOnSlash rest
      if c = '/' then [] :: r
      else (c :: r.headD []) :: r.tail

/-- Resolve `.`/`..`/empty segments of an absolute path the way the OS does
when it evaluates the path (`..` at the root is dropped). -/
def resolveSegs (segs : List (List Char)) : List (List Char) :=
  segs.foldl
    (fun acc seg =>
      if seg = [] ∨ seg = ['.'] then acc
      else if seg = ['.', '.'] then acc.dropLast
      else acc ++ [seg])
    []

/-- The location on disk an absolute path string denotes: its resolved
segment list.  Two path strings denote the same file iff they normalize to
the same segment list. -/
def normalizeAbs (p : String) : List String :=
  (resolveSegs (splitOnSlash p.data)).map String.mk

/-- `core/config.py` `UPLOAD_DIRECTORY = os.path.join(BASE_DIR, "uploads")`.
`BASE_DIR` is the absolute repository directory, fixed at process start; it is
abstracted here as `/app`. -/
def UPLOAD_DIRECTORY : String := "/app/uploads"

/-- The files present on disk: the set of resolved absolute paths, as a
duplicate-free list of segment lists. -/
def insertPath (fs : List (List String)) (p : List String) : List (List String) :=
  if p ∈ fs then fs else fs ++ [p]

/-- Python `os.path.exists(p)`: the OS resolves `p` and checks presence. -/
def pathExists (fs : List (List String)) (p : String) : Bool :=
  decide (normalizeAbs p ∈ fs)

/-- `utils/file_handler.py` `process_pdf`:  `loadResult` is the outcome of
`PyPDFLoader(file_path).load()` and `splitResult` the outcome the splitter
`RecursiveCharacterTextSplitter(...).split_documents(documents)` would give
(only consulted when the loaded page list is nonempty).  An exception from
either external call is caught and re-raised as
`ValueError(f"Failed to process PDF: \x7be\x7d")`; an empty page list returns
`[]` without error. -/
def process_pdf (loadResult : Except String (List Document))
    (splitResult : Except String (List Document)) : Except PyErr (List Document) :=
  match loadResult with
  | .error e => .error (.valueError ("Failed to process PDF: " ++ e))
  | .ok documents =>
      if documents.isEmpty then .ok []
      else
        match splitResult with
        | .error e => .error (.valueError ("Failed to process PDF: " ++ e))
        | .ok split_docs => .ok split_docs

/-- The tagging loop of `load_pdf_to_vector_store`:
`for doc in docs: doc.metadata["source"] = file_name`. -/
def tagDocs (docs : List Document) (file_name : String) : List Document :=
  docs.map (fun d => { d with metadata := setMeta d.metadata "source" file_name })

/-- `services/rag_service.py` `load_pdf_to_vector_store`, given the outcome of
`process_pdf` and of the external `vector_store.add_documents` call
(`addResult = some e` means that call raises `e`).  The vector store is the
list of records; `add_documents` appends.  On an empty chunk list it returns
`False` before any add; every chunk added gets `metadata["source"] = file_name`;
exceptions are logged and re-raised. -/
def load_pdf_to_vector_store (procResult : Except PyErr (List Document))
    (addResult : Option String) (file_name : String) (store : List Document) :
    Except PyErr (Bool × List Document) :=
  match procResult with
  | .error e => .error e
  | .ok docs =>
      if docs.isEmpty then .ok (false, store)
      else
        let tagged := tagDocs docs file_name
        match addResult with
        | some e => .error (.other e)
        | none => .ok (true, store ++ tagged)

/-- `services/rag_service.py` `format_docs`. -/
def format_docs (docs : List Document) : String :=
  String.intercalate "\n\n" (docs.map (fun d => d.page_content))

/-- Retrieval as `query_rag` configures it:
`vector_store.as_retriever(search_kwargs={"filter": {"source": file_name\x7d})`.
Modelled from the spec for the out-of-scope Chroma internals: the metadata
filter restricts the candidate records to those whose `source` metadata equals
`file_name` exactly; the similarity ranking `rank` (embedding + nearest
neighbour + top-k) is an external oracle applied to that candidate set. -/
def retrieve (rank : List Document → List Document) (store : List Document)
    (file_name : String) : List Document :=
  rank (store.filter (fun d => d.metadata.lookup "source" = some file_name))

/-- `services/rag_service.py` `query_rag`: retrieve the filtered chunks, build
the context with `format_docs`, render the fixed prompt and call the LLM.
`llm context question` is the remote completion oracle on the rendered prompt;
exceptions are logged and re-raised. -/
def query_rag (rank : List Document → List Document)
    (llm : String → String → Except String String)
    (store : List Document) (query file_name : String) : Except String String :=
  let docs := retrieve rank store file_name
  llm (format_docs docs) query

/-- Server-side state visible to the endpoints: the files on disk and the
vector-store records. -/
structure ServerState where
  fs : List (List String)
  store : List Document
deriving Repr, DecidableEq

/-- Outcome of an upload request: a 201 `UploadResponse` or an HTTP error
response `(status_code, detail)`. -/
inductive UploadOutcome where
  | success (message file_name : String)
  | error (status_code : Nat) (detail : String)
deriving Repr, DecidableEq

/-- Outcome of a query request: a 200 `QueryResponse` or an HTTP error
response `(status_code, detail)`. -/
inductive QueryOutcome where
  | success (answer file_name : String)
  | error (status_code : Nat) (detail : String)
deriving Repr, DecidableEq

/-- Outcomes of the external calls a single upload request makes:
whether the disk save raises, what `PyPDFLoader.load()` returns, what the
splitter would return on the loaded pages, and whether
`vector_store.add_documents` raises. -/
structure UploadEnv where
  saveError : Option String
  loadResult : Except String (List Document)
  splitResult : Except String (List Document)
  addError : Option String
deriving Repr

/-- `str(HTTPException(code, detail))` (starlette): `"\x7bcode\x7d: \x7bdetail\x7d"`. -/
def httpExceptionStr (code : Nat) (detail : String) : String :=
  toString code ++ ": " ++ detail

/-- `main.py` `upload_pdf`.  Faithful to the control flow, including the slip
on the empty-result path: the `HTTPException(400, "The PDF file appears to be
empty or corrupted.")` raised inside the `try` block is caught by the
`except Exception as e` clause below it, which re-raises
`HTTPException(500, f"An error occurred during file processing: \x7be\x7d")`,
so the client receives a 500, not the 400. -/
def upload_pdf (env : UploadEnv) (filename : String) (st : ServerState) :
    UploadOutcome × ServerState :=
  if pyEndsWith filename ".pdf" = false then
    (.error 400 "Invalid file type. Only PDF files are allowed.", st)
  else
    let secure_filename := basename filename
    let file_path := joinPath UPLOAD_DIRECTORY secure_filename
    match env.saveError with
    | some e => (.error 500 ("Failed to save uploaded file: " ++ e), st)
    | none =>
        let st1 : ServerState := ⟨insertPath st.fs (normalizeAbs file_path), st.store⟩
        match load_pdf_to_vector_store (process_pdf env.loadResult env.splitResult)
            env.addError secure_filename st1.store with
        | .error (.valueError ve) =>
            (.error 500 ("Failed to process PDF: " ++ ve), st1)
        | .error (.other e) =>
            (.error 500 ("An error occurred during file processing: " ++ e), st1)
        | .ok (false, store') =>
            -- the HTTPException(400) raised here is swallowed by `except Exception`
            (.error 500 ("An error occurred during file processing: " ++
                httpExceptionStr 400 "The PDF file appears to be empty or corrupted."),
              ⟨st1.fs, store'⟩)
        | .ok (true, store') =>
            (.success "File processed and added to vector store successfully." secure_filename,
              ⟨st1.fs, store'⟩)

/-- `main.py` `query_pdf`: join the client-supplied `file_name` onto the
upload directory (no sanitization), 404 when that path does not exist on disk,
otherwise delegate to `query_rag` and map an exception to a 500. -/
def query_pdf (rank : List Document → List Document)
    (llm : String → String → Except String String)
    (query file_name : String) (st : ServerState) : QueryOutcome :=
  let file_path := joinPath UPLOAD_DIRECTORY file_name
  if pathExists st.fs file_path = false then
    .error 404 ("File not found: " ++ file_name ++ ". Please upload it first.")
  else
    match query_rag rank llm st.store query file_name with
    | .error e => .error 500 ("An error occurred while generating the answer: " ++ e)
    | .ok answer => .success answer file_name

/-! ### Helper lemmas -/

theorem lookup_setMeta (m : List (String × String)) (k v : String) :
    (setMeta m k v).lookup k = some v := by
  induction m with
  | nil => simp [setMeta, List.lookup]
  | cons kv rest ih =>
      obtain ⟨k', v'⟩ := kv
      by_cases h : k' = k
      · simp [setMeta, h, List.lookup]
      · have hb : (k == k') = false := beq_eq_false_iff_ne.mpr (Ne.symm h)
        simp [setMeta, h, List.lookup, hb, ih]

theorem mem_insertPath (fs : List (List String)) (p : List String) :
    p ∈ insertPath fs p := by
  unfold insertPath
  split
  · assumption
  · simp

theorem splitOnSlash_ne_nil (cs : List Char) : splitOnSlash cs ≠ [] := by
  induction cs with
  | nil => simp [splitOnSlash]
  | cons c rest ih =>
      simp only [splitOnSlash]
      split <;> simp

theorem splitOnSlash_append_slash (xs ys : List Char) :
    splitOnSlash (xs ++ '/' :: ys) = splitOnSlash xs ++ splitOnSlash ys := by
  induction xs with
  | nil => simp [splitOnSlash]
  | cons c rest ih =>
      obtain ⟨h, t, hht⟩ := List.exists_cons_of_ne_nil (splitOnSlash_ne_nil rest)
      by_cases hc : c = '/'
      · simp [splitOnSlash, hc, ih]
      · simp [splitOnSlash, hc, ih, hht]

theorem splitOnSlash_no_slash (cs : List Char) (h : ∀ c ∈ cs, c ≠ '/') :
    splitOnSlash cs = [cs] := by
  induction cs with
  | nil => rfl
  | cons c rest ih =>
      have hc : ¬ c = '/' := h c (by simp)
      have ih' := ih (fun c hc => h c (by simp [hc]))
      simp [splitOnSlash, hc, ih']

theorem basename_no_slash (p : String) : ∀ c ∈ (basename p).data, c ≠ '/' := by
  intro c hc
  have : c ∈ (p.data.reverse.takeWhile (fun c => !(c = '/'))) := by
    simpa [basename] using hc
  have := List.mem_takeWhile_imp this
  simpa using this

theorem basename_of_endsWith_pdf (g : String) (h : pyEndsWith g ".pdf" = true) :
    ∃ t : List Char, (basename g).data = t ++ ['.', 'p', 'd', 'f'] := by
  have hsuf : ['.', 'p', 'd', 'f'] <:+ g.data := by
    unfold pyEndsWith at h
    have hd : (".pdf" : String).data = ['.', 'p', 'd', 'f'] := rfl
    rw [hd] at h
    exact List.isSuffixOf_iff_suffix.mp h
  obtain ⟨pre, hpre⟩ := hsuf
  refine ⟨(pre.reverse.takeWhile (fun c => !(c = '/'))).reverse, ?_⟩
  have : g.data.reverse = 'f' :: 'd' :: 'p' :: '.' :: pre.reverse := by
    simp [← hpre]
  simp [basename, this, List.takeWhile]

theorem isAbsPath_eq_false_of_no_slash (p : String) (h : ∀ c ∈ p.data, c ≠ '/') :
    isAbsPath p = false := by
  unfold isAbsPath
  split
  · next heq => exact absurd rfl (by apply h; simp [heq])
  · rfl

theorem load_pdf_to_vector_store_ok (docs store : List Document) (fname : String)
    (h : docs ≠ []) :
    load_pdf_to_vector_store (.ok docs) none fname store =
      .ok (true, store ++ tagDocs docs fname) := by
  cases docs with
  | nil => exact absurd rfl h
  | cons d ds => simp [load_pdf_to_vector_store]

theorem mem_tagDocs_lookup (docs : List Document) (fname : String) :
    ∀ d ∈ tagDocs docs fname, d.metadata.lookup "source" = some fname := by
  intro d hd
  obtain ⟨x, _, rfl⟩ := List.mem_map.mp hd
  exact lookup_setMeta x.metadata "source" fname

theorem mem_retrieve_id (store : List Document) (fname : String) (d : Document)
    (hd : d ∈ store) (hlook : d.metadata.lookup "source" = some fname) :
    d ∈ retrieve (fun xs => xs) store fname := by
  have hmem : d ∈ store.filter (fun d => d.metadata.lookup "source" = some fname) :=
    List.mem_filter.mpr ⟨hd, decide_eq_true hlook⟩
  simpa [retrieve] using hmem

/-! ### Claim theorems -/

/-- C1: the claim says an upload of a `.pdf` whose segmenter result is empty is
answered with HTTP 400 and an "empty or corrupted" detail.  The code builds
exactly that `HTTPException(400, ...)` but raises it inside its own
`try`/`except Exception` block, so it is converted to a 500 whose detail embeds
the stringified 400 exception: at the failing input (an upload of `empty.pdf`
for which the loader yields no pages) the endpoint responds 500, not 400. -/
theorem upload_empty_pdf_responds_500_not_400 :
    upload_pdf ⟨none, .ok [], .ok [], none⟩ "empty.pdf" ⟨[], []⟩ =
      (.error 500
        "An error occurred during file processing: 400: The PDF file appears to be empty or corrupted.",
       ⟨[["app", "uploads", "empty.pdf"]], []⟩) := by
  rfl

/-- C4: an upload whose filename does not end in `.pdf` is rejected with 400
("Invalid file type. Only PDF files are allowed.") and the server state —
both the upload directory and the vector store — is exactly the prior state. -/
theorem upload_non_pdf_rejected_400_state_unchanged (env : UploadEnv)
    (filename : String) (st : ServerState)
    (h : pyEndsWith filename ".pdf" = false) :
    upload_pdf env filename st =
      (.error 400 "Invalid file type. Only PDF files are allowed.", st) := by
  simp [upload_pdf, h]

/-- C4 witness: uploading `notes.txt` against the empty state. -/
theorem upload_non_pdf_rejected_witness :
    pyEndsWith "notes.txt" ".pdf" = false
    ∧ upload_pdf ⟨none, .ok [], .ok [], none⟩ "notes.txt" ⟨[], []⟩ =
        (.error 400 "Invalid file type. Only PDF files are allowed.", ⟨[], []⟩) :=
  ⟨by decide,
   upload_non_pdf_rejected_400_state_unchanged ⟨none, .ok [], .ok [], none⟩
     "notes.txt" ⟨[], []⟩ (by decide)⟩

/-- C3: when the joined path for the requested `file_name` does not exist on
disk, the query endpoint answers 404 with the "File not found" detail, for
every query text and every LLM/ranking oracle; and the answer is the same for
every vector-store content, i.e. the check consults the disk, never the
index. -/
theorem query_unknown_file_404 (rank : List Document → List Document)
    (llm : String → String → Except String String)
    (query file_name : String) (st : ServerState)
    (h : pathExists st.fs (joinPath UPLOAD_DIRECTORY file_name) = false) :
    query_pdf rank llm query file_name st =
      .error 404 ("File not found: " ++ file_name ++ ". Please upload it first.")
    ∧ ∀ store' : List Document,
        query_pdf rank llm query file_name ⟨st.fs, store'⟩ =
          .error 404 ("File not found: " ++ file_name ++ ". Please upload it first.") := by
  refine ⟨?_, fun store' => ?_⟩ <;> simp [query_pdf, h]

/-- C3 witness: querying `ghost.pdf` against a state whose disk is empty but
whose vector store does hold a record tagged `ghost.pdf` still yields 404. -/
theorem query_unknown_file_404_witness :
    pathExists ([] : List (List String)) (joinPath UPLOAD_DIRECTORY "ghost.pdf") = false
    ∧ query_pdf (fun xs => xs) (fun _ _ => .ok "answer") "hi" "ghost.pdf"
        ⟨[], [⟨"text", [("source", "ghost.pdf")]⟩]⟩ =
        .error 404 "File not found: ghost.pdf. Please upload it first." :=
  ⟨by decide,
   (query_unknown_file_404 (fun xs => xs) (fun _ _ => .ok "answer") "hi" "ghost.pdf"
     ⟨[], [⟨"text", [("source", "ghost.pdf")]⟩]⟩ (by decide)).1⟩

/-- C6: when the segmenter result is empty, `load_pdf_to_vector_store` returns
`False` before the `add_documents` call (the result does not depend on the
add-oracle at all), and the upload endpoint leaves the vector store exactly as
it was. -/
theorem upload_empty_result_adds_no_records (env : UploadEnv) (filename : String)
    (st : ServerState)
    (hproc : process_pdf env.loadResult env.splitResult = .ok []) :
    (upload_pdf env filename st).2.store = st.store
    ∧ ∀ addErr : Option String,
        load_pdf_to_vector_store (.ok []) addErr (basename filename) st.store =
          .ok (false, st.store) := by
  constructor
  · unfold upload_pdf
    split
    · rfl
    · cases hsave : env.saveError with
      | some e => simp
      | none => simp [hproc, load_pdf_to_vector_store]
  · intro addErr
    simp [load_pdf_to_vector_store]

/-- C6 witness: uploading `empty.pdf` (loader yields no pages) against a state
holding one record leaves the store untouched even with a failing add-oracle. -/
theorem upload_empty_result_witness :
    process_pdf (Except.ok []) (.ok []) = .ok []
    ∧ (upload_pdf ⟨none, .ok [], .ok [], some "down"⟩ "empty.pdf"
        ⟨[], [⟨"old", [("source", "a.pdf")]⟩]⟩).2.store = [⟨"old", [("source", "a.pdf")]⟩] :=
  ⟨rfl,
   (upload_empty_result_adds_no_records ⟨none, .ok [], .ok [], some "down"⟩ "empty.pdf"
     ⟨[], [⟨"old", [("source", "a.pdf")]⟩]⟩ rfl).1⟩

/-- C2 counterexample: the ingest operation does not return the count of
records added.  Two successful ingestions that add different numbers of
records (1 and 2) both return the same value `True`: the returned value is a
boolean success flag, not a count. -/
theorem ingest_returns_bool_not_count :
    (load_pdf_to_vector_store (.ok [⟨"a", []⟩]) none "f.pdf" []).map Prod.fst = .ok true
    ∧ (load_pdf_to_vector_store (.ok [⟨"a", []⟩, ⟨"b", []⟩]) none "f.pdf" []).map Prod.fst = .ok true
    ∧ (load_pdf_to_vector_store (.ok [⟨"a", []⟩]) none "f.pdf" []).map
        (fun r => r.2.length) = .ok 1
    ∧ (load_pdf_to_vector_store (.ok [⟨"a", []⟩, ⟨"b", []⟩]) none "f.pdf" []).map
        (fun r => r.2.length) = .ok 2 :=
  ⟨rfl, rfl, rfl, rfl⟩

/-- C2 (amended): for every successful ingestion of a non-empty chunk
sequence, `load_pdf_to_vector_store` returns `True`, and the number of records
in the vector index grows by exactly the number of chunks (the count itself is
only logged, not returned). -/
theorem ingest_returns_true_and_adds_chunk_count (docs store : List Document)
    (fname : String) (h : docs ≠ []) :
    load_pdf_to_vector_store (.ok docs) none fname store =
      .ok (true, store ++ tagDocs docs fname)
    ∧ (store ++ tagDocs docs fname).length = store.length + docs.length := by
  constructor
  · cases docs with
    | nil => exact absurd rfl h
    | cons d ds => simp [load_pdf_to_vector_store]
  · simp [tagDocs]

/-- C2 witness: ingesting one chunk into a store of one record yields `True`
and a store of two records. -/
theorem ingest_count_witness :
    ([(⟨"a", []⟩ : Document)] ≠ [])
    ∧ load_pdf_to_vector_store (.ok [⟨"a", []⟩]) none "f.pdf" [⟨"o", [("source", "g.pdf")]⟩] =
        .ok (true, [⟨"o", [("source", "g.pdf")]⟩, ⟨"a", [("source", "f.pdf")]⟩])
    ∧ ([(⟨"o", [("source", "g.pdf")]⟩ : Document)] ++ tagDocs [⟨"a", []⟩] "f.pdf").length = 2 :=
  ⟨by decide,
   (ingest_returns_true_and_adds_chunk_count [⟨"a", []⟩] [⟨"o", [("source", "g.pdf")]⟩]
     "f.pdf" (by decide)).1,
   (ingest_returns_true_and_adds_chunk_count [⟨"a", []⟩] [⟨"o", [("source", "g.pdf")]⟩]
     "f.pdf" (by decide)).2⟩

/-- C8: `process_pdf` returns the empty sequence (not an error) when the
loader yields no pages; it raises a `ValueError` wrapping the cause exactly
when the extractor throws, or the extractor yields pages and the splitter
throws on them. -/
theorem process_pdf_empty_ok_and_error_iff
    (loadResult splitResult : Except String (List Document)) :
    process_pdf (.ok []) splitResult = .ok []
    ∧ ((∃ e, process_pdf loadResult splitResult = .error e) ↔
        ((∃ m, loadResult = .error m) ∨
          (∃ docs, loadResult = .ok docs ∧ docs ≠ [] ∧ ∃ m, splitResult = .error m)))
    ∧ (∀ m, loadResult = .error m →
        process_pdf loadResult splitResult =
          .error (.valueError ("Failed to process PDF: " ++ m)))
    ∧ (∀ docs m, loadResult = .ok docs → docs ≠ [] → splitResult = .error m →
        process_pdf loadResult splitResult =
          .error (.valueError ("Failed to process PDF: " ++ m))) := by
  refine ⟨by simp [process_pdf], ?_, ?_, ?_⟩
  · cases loadResult with
    | error m => simp [process_pdf]
    | ok docs =>
        cases docs with
        | nil => cases splitResult <;> simp [process_pdf]
        | cons d ds => cases splitResult <;> simp [process_pdf]
  · intro m hm
    subst hm
    simp [process_pdf]
  · intro docs m hload hne hsplit
    subst hload hsplit
    cases docs with
    | nil => exact absurd rfl hne
    | cons d ds => simp [process_pdf]

/-- C8 witness: a loader failure is wrapped as a `ValueError`, and an empty
page list yields the empty chunk list without error. -/
theorem process_pdf_witness :
    process_pdf (.ok []) (.ok []) = .ok []
    ∧ process_pdf (.error "bad xref") (.ok []) =
        .error (.valueError "Failed to process PDF: bad xref") :=
  ⟨(process_pdf_empty_ok_and_error_iff (.error "bad xref") (.ok [])).1,
   (process_pdf_empty_ok_and_error_iff (.error "bad xref") (.ok [])).2.2.1 "bad xref" rfl⟩

/-- C5: every record a successful ingestion appends to the vector index
carries `source` metadata equal to the ingestion filename, and retrieval is an
exact-equality filter on `source`: whatever sublist the similarity oracle
returns contains only records whose `source` equals the queried filename, and
with the full candidate set every record whose `source` matches is a
candidate. -/
theorem ingested_source_eq_filename_and_filter_exact
    (docs store store' : List Document) (fname : String) (addErr : Option String)
    (h : load_pdf_to_vector_store (.ok docs) addErr fname store = .ok (true, store')) :
    (∀ d ∈ store', d ∈ store ∨ d.metadata.lookup "source" = some fname)
    ∧ (∀ rank : List Document → List Document, (∀ xs, ∀ d ∈ rank xs, d ∈ xs) →
        ∀ q d, d ∈ retrieve rank store' q → d.metadata.lookup "source" = some q)
    ∧ (∀ d ∈ store', d.metadata.lookup "source" = some fname →
        d ∈ retrieve (fun xs => xs) store' fname) := by
  have hstore : store' = store ++ tagDocs docs fname := by
    cases docs with
    | nil => simp [load_pdf_to_vector_store] at h
    | cons d ds =>
        cases addErr with
        | some e => simp [load_pdf_to_vector_store] at h
        | none =>
            rw [load_pdf_to_vector_store_ok (d :: ds) store fname (by simp)] at h
            simp only [Except.ok.injEq, Prod.mk.injEq, true_and] at h
            exact h.symm
  refine ⟨?_, ?_, ?_⟩
  · intro d hd
    rw [hstore] at hd
    rcases List.mem_append.mp hd with h1 | h2
    · exact Or.inl h1
    · exact Or.inr (mem_tagDocs_lookup docs fname d h2)
  · intro rank hrank q d hd
    have hmem : d ∈ store'.filter (fun d => d.metadata.lookup "source" = some q) :=
      hrank _ d hd
    exact of_decide_eq_true (List.mem_filter.mp hmem).2
  · intro d hd hlook
    exact mem_retrieve_id store' fname d hd hlook

/-- C5 witness: ingesting a chunk whose metadata already holds a stale
`source` (the loader's file path) overwrites it with the upload filename, and
the record is retrieved under exactly that filename. -/
theorem ingested_source_witness :
    load_pdf_to_vector_store (.ok [⟨"hello", [("source", "/app/uploads/a.pdf")]⟩])
        none "a.pdf" [] = .ok (true, [⟨"hello", [("source", "a.pdf")]⟩])
    ∧ ∀ d ∈ [(⟨"hello", [("source", "a.pdf")]⟩ : Document)],
        d ∈ ([] : List Document) ∨ d.metadata.lookup "source" = some "a.pdf" :=
  ⟨rfl,
   (ingested_source_eq_filename_and_filter_exact
     [⟨"hello", [("source", "/app/uploads/a.pdf")]⟩] [] [⟨"hello", [("source", "a.pdf")]⟩]
     "a.pdf" none rfl).1⟩

/-- C7: ingesting `docs2` under a filename that already holds the records of a
first ingestion `docs1` appends tagged copies of `docs2` after the existing
records — the earlier records are neither modified nor deleted — and the
chunks of both ingestions are candidates of a retrieval filtered on that
filename. -/
theorem reupload_duplicates_not_replaces (docs1 docs2 store : List Document)
    (fname : String) (h1 : docs1 ≠ []) (h2 : docs2 ≠ []) :
    load_pdf_to_vector_store (.ok docs1) none fname store =
      .ok (true, store ++ tagDocs docs1 fname)
    ∧ load_pdf_to_vector_store (.ok docs2) none fname (store ++ tagDocs docs1 fname) =
      .ok (true, store ++ tagDocs docs1 fname ++ tagDocs docs2 fname)
    ∧ (∀ d ∈ tagDocs docs1 fname,
        d ∈ retrieve (fun xs => xs) (store ++ tagDocs docs1 fname ++ tagDocs docs2 fname) fname)
    ∧ (∀ d ∈ tagDocs docs2 fname,
        d ∈ retrieve (fun xs => xs) (store ++ tagDocs docs1 fname ++ tagDocs docs2 fname) fname) := by
  refine ⟨load_pdf_to_vector_store_ok docs1 store fname h1,
    load_pdf_to_vector_store_ok docs2 (store ++ tagDocs docs1 fname) fname h2, ?_, ?_⟩
  · intro d hd
    exact mem_retrieve_id _ fname d (by simp [hd]) (mem_tagDocs_lookup docs1 fname d hd)
  · intro d hd
    exact mem_retrieve_id _ fname d (by simp [hd]) (mem_tagDocs_lookup docs2 fname d hd)

/-- C7 witness: re-uploading `a.pdf` with a second chunk keeps the first
ingestion's record in place and makes both records retrieval candidates. -/
theorem reupload_duplicates_witness :
    load_pdf_to_vector_store (.ok [⟨"two", []⟩]) none "a.pdf" (tagDocs [⟨"one", []⟩] "a.pdf") =
      .ok (true, tagDocs [⟨"one", []⟩] "a.pdf" ++ tagDocs [⟨"two", []⟩] "a.pdf")
    ∧ ∀ d ∈ tagDocs [(⟨"one", []⟩ : Document)] "a.pdf",
        d ∈ retrieve (fun xs => xs)
          ([] ++ tagDocs [⟨"one", []⟩] "a.pdf" ++ tagDocs [⟨"two", []⟩] "a.pdf") "a.pdf" :=
  ⟨by
    have := (reupload_duplicates_not_replaces [⟨"one", []⟩] [⟨"two", []⟩] [] "a.pdf"
      (by decide) (by decide)).2.1
    simpa using this,
   (reupload_duplicates_not_replaces [⟨"one", []⟩] [⟨"two", []⟩] [] "a.pdf"
     (by decide) (by decide)).2.2.1⟩

/-- C10: when an upload of a `.pdf` gets past the save step (the disk write
succeeds) but ends in an error response, the saved file is still on disk in
the upload directory — the error paths perform no cleanup — so the
disk-existence check that a later query for that filename performs succeeds;
and in the empty-segmenter-result case the index received no records for it. -/
theorem failed_upload_leaves_file_on_disk (env : UploadEnv) (filename : String)
    (st : ServerState)
    (hpdf : pyEndsWith filename ".pdf" = true)
    (hsave : env.saveError = none)
    (_hfail : ∃ c d, (upload_pdf env filename st).1 = .error c d) :
    pathExists (upload_pdf env filename st).2.fs
        (joinPath UPLOAD_DIRECTORY (basename filename)) = true
    ∧ (process_pdf env.loadResult env.splitResult = .ok [] →
        (upload_pdf env filename st).2.store = st.store) := by
  have hfs : (upload_pdf env filename st).2.fs =
      insertPath st.fs (normalizeAbs (joinPath UPLOAD_DIRECTORY (basename filename))) := by
    unfold upload_pdf
    simp only [hpdf, hsave, Bool.true_eq_false, if_false]
    rcases load_pdf_to_vector_store (process_pdf env.loadResult env.splitResult)
        env.addError (basename filename) st.store with e | ⟨b, store'⟩
    · cases e <;> rfl
    · cases b <;> rfl
  refine ⟨?_, ?_⟩
  · rw [hfs]
    exact decide_eq_true (mem_insertPath _ _)
  · intro hproc
    unfold upload_pdf
    simp [hpdf, hsave, hproc, load_pdf_to_vector_store]

/-- C10 witness: uploading `empty.pdf` (no extractable text) yields an error
response, yet the file is on disk afterwards and the store is unchanged. -/
theorem failed_upload_leaves_file_witness :
    pyEndsWith "empty.pdf" ".pdf" = true
    ∧ (∃ c d, (upload_pdf ⟨none, .ok [], .ok [], none⟩ "empty.pdf" ⟨[], []⟩).1 = .error c d)
    ∧ pathExists (upload_pdf ⟨none, .ok [], .ok [], none⟩ "empty.pdf" ⟨[], []⟩).2.fs
        (joinPath UPLOAD_DIRECTORY (basename "empty.pdf")) = true
    ∧ (upload_pdf ⟨none, .ok [], .ok [], none⟩ "empty.pdf" ⟨[], []⟩).2.store = [] := by
  have h := failed_upload_leaves_file_on_disk ⟨none, .ok [], .ok [], none⟩ "empty.pdf"
    ⟨[], []⟩ (by decide) rfl ⟨500,
      "An error occurred during file processing: 400: The PDF file appears to be empty or corrupted.",
      rfl⟩
  exact ⟨by decide,
    ⟨500,
      "An error occurred during file processing: 400: The PDF file appears to be empty or corrupted.",
      rfl⟩,
    h.1, h.2 rfl⟩

theorem resolveSegs_snoc_plain (segs : List (List Char)) (seg : List Char)
    (h0 : seg ≠ []) (h1 : seg ≠ ['.']) (h2 : seg ≠ ['.', '.']) :
    resolveSegs (segs ++ [seg]) = resolveSegs segs ++ [seg] := by
  unfold resolveSegs
  rw [List.foldl_append]
  simp [h0, h1, h2]

/-- Where an accepted upload saves its file: for every filename ending in
`.pdf`, the path `os.path.join(UPLOAD_DIRECTORY, basename(filename))` resolves
to the basename directly inside the upload directory. -/
theorem upload_save_path_of_pdf (g : String) (h : pyEndsWith g ".pdf" = true) :
    normalizeAbs (joinPath UPLOAD_DIRECTORY (basename g)) =
      ["app", "uploads", basename g] := by
  obtain ⟨t, ht⟩ := basename_of_endsWith_pdf g h
  have hnos := basename_no_slash g
  have habs : isAbsPath (basename g) = false := isAbsPath_eq_false_of_no_slash _ hnos
  have hlen : ∀ l : List Char, (basename g).data = l → t.length + 4 = l.length := by
    intro l hl
    rw [ht] at hl
    simpa using congrArg List.length hl
  have h0 : (basename g).data ≠ [] := fun he => by have := hlen [] he; simp at this
  have h1 : (basename g).data ≠ ['.'] := fun he => by have := hlen ['.'] he; simp at this
  have h2 : (basename g).data ≠ ['.', '.'] := fun he => by have := hlen ['.', '.'] he; simp at this
  have hjoin : joinPath UPLOAD_DIRECTORY (basename g) =
      UPLOAD_DIRECTORY ++ "/" ++ basename g := by
    simp [joinPath, habs]
  rw [hjoin]
  unfold normalizeAbs
  have hdata : (UPLOAD_DIRECTORY ++ "/" ++ basename g).data =
      UPLOAD_DIRECTORY.data ++ '/' :: (basename g).data := by
    simp [String.data_append]
  rw [hdata, splitOnSlash_append_slash, splitOnSlash_no_slash _ hnos]
  have hsplit : splitOnSlash UPLOAD_DIRECTORY.data =
      [[], ['a', 'p', 'p'], ['u', 'p', 'l', 'o', 'a', 'd', 's']] := by decide
  rw [hsplit, resolveSegs_snoc_plain _ _ h0 h1 h2]
  have hres : resolveSegs [[], ['a', 'p', 'p'], ['u', 'p', 'l', 'o', 'a', 'd', 's']] =
      [['a', 'p', 'p'], ['u', 'p', 'l', 'o', 'a', 'd', 's']] := by decide
  rw [hres]
  rfl

/-- C9: the query endpoint joins the raw client-supplied `file_name` onto the
upload directory while the upload endpoint saves under the sanitized basename.
For `file_name = "../x"` the existence check consults `/app/x`, which lies
outside the upload directory and which no accepted upload ever saves to, and
the check succeeds whenever such an outside file is on disk (the query then
proceeds instead of returning 404). -/
theorem query_path_traversal_escapes_upload_dir :
    (¬ normalizeAbs UPLOAD_DIRECTORY <+: normalizeAbs (joinPath UPLOAD_DIRECTORY "../x"))
    ∧ (∀ g : String, pyEndsWith g ".pdf" = true →
        normalizeAbs (joinPath UPLOAD_DIRECTORY (basename g)) ≠
          normalizeAbs (joinPath UPLOAD_DIRECTORY "../x"))
    ∧ query_pdf (fun xs => xs) (fun _ _ => .ok "answer") "q" "../x"
        ⟨[normalizeAbs (joinPath UPLOAD_DIRECTORY "../x")], []⟩ =
        .success "answer" "../x" := by
  refine ⟨by decide, ?_, by decide⟩
  intro g hg
  rw [upload_save_path_of_pdf g hg]
  have hx : normalizeAbs (joinPath UPLOAD_DIRECTORY "../x") = ["app", "x"] := by decide
  rw [hx]
  intro heq
  have := congrArg List.length heq
  simp at this

/-- C9 witness: the save path of an upload named `a.pdf` is not the path the
query for `../x` checks. -/
theorem query_path_traversal_witness :
    normalizeAbs (joinPath UPLOAD_DIRECTORY (basename "a.pdf")) ≠
      normalizeAbs (joinPath UPLOAD_DIRECTORY "../x") :=
  query_path_traversal_escapes_upload_dir.2.1 "a.pdf" (by decide)

end RAG
